import Mathlib

set_option linter.unusedVariables false

/-! Shallow embedding of `src/network/src/peer_manager/transport.rs`: the
connection-establishment loop of `TransportHandler`, its dial handling
(`dial_peer`), its two upgrade-completion handlers
(`handle_completed_outbound_upgrade`, `handle_completed_inbound_upgrade`), and the
`listen` select loop, with the per-origin pending-upgrade gauges and the externally
visible effects (reply-slot sends, sink notifications, logs, histogram observations)
made explicit.  Time is a `Nat` tick supplied at each event; the external transport is
an oracle whose dial/upgrade results are inputs to each step. -/

instance {ε α : Type} [DecidableEq ε] [DecidableEq α] : DecidableEq (Except ε α) :=
  fun a b =>
    match a, b with
    | .error e, .error f =>
      if h : e = f then .isTrue (by rw [h]) else .isFalse (fun hc => h (Except.error.inj hc))
    | .ok x, .ok y =>
      if h : x = y then .isTrue (by rw [h]) else .isFalse (fun hc => h (Except.ok.inj hc))
    | .error _, .ok _ => .isFalse (fun hc => Except.noConfusion hc)
    | .ok _, .error _ => .isFalse (fun hc => Except.noConfusion hc)

/-- Peer identity (`PeerId`), modelled as a numeric identifier. -/
structure PeerId where
  id : Nat
deriving DecidableEq

/-- Rendering used by `short_str()` in log and error messages. -/
def PeerId.short_str (p : PeerId) : String :=
  toString p.id

/-- Opaque comparable network location (`NetworkAddress`). -/
structure NetworkAddress where
  addr : Nat
deriving DecidableEq

/-- Connection origin (`netcore::transport::ConnectionOrigin`). -/
inductive ConnectionOrigin
  | Inbound
  | Outbound
deriving DecidableEq

/-- Connection metadata: the observed remote peer, address and origin. -/
structure ConnectionMetadata where
  remote_peer_id : PeerId
  addr : NetworkAddress
  origin : ConnectionOrigin
deriving DecidableEq

/-- A successfully upgraded connection (`transport::Connection<TSocket>`): metadata
plus an opaque socket handle. -/
structure Connection where
  metadata : ConnectionMetadata
  socket : Nat
deriving DecidableEq

/-- Modelled from the spec: the error type carried by the reply slot.
`PeerManagerError` and its constructor function `PeerManagerError::from_transport_error`
are declared in the `peer_manager` module, which is not among the provided source
files; the spec (section 7) describes the categories a caller can observe.  In
`transport.rs` every failure path (dial rejection at line 186, transport upgrade
failure at line 228, identity mismatch at lines 221-225) is built by the one function
`from_transport_error` applied to an error value, so the reply error is modelled as a
single transport-error wrapper around the rendered message of its argument. -/
inductive PeerManagerError
  | TransportError (msg : String)
deriving DecidableEq

/-- `PeerManagerError::from_transport_error`: wraps any error (rendered to its
message) into the transport-error variant. -/
def PeerManagerError.from_transport_error (msg : String) : PeerManagerError :=
  .TransportError msg

/-- The request type handled by the loop (`TransportRequest::DialPeer`): requested
peer, dial address, and the oneshot reply sender, identified by a slot number. -/
inductive TransportRequest
  | DialPeer (peer_id : PeerId) (addr : NetworkAddress) (response_slot : Nat)

/-- Notification forwarded to the PeerManager sink
(`TransportNotification::NewConnection`). -/
inductive TransportNotification
  | NewConnection (connection : Connection)
deriving DecidableEq

/-- Histogram outcome label (`SUCCEEDED_LABEL` / `FAILED_LABEL`). -/
inductive OutcomeLabel
  | succeeded
  | failed
deriving DecidableEq

/-- A task abort raised by `expect`/`unwrap` on a failed operation. -/
inductive Panic
  | panicked (msg : String)
deriving DecidableEq

/-- Externally visible effects of the loop: a send on a dial reply slot, a
notification on the `transport_notifs_tx` sink, a log line, or a duration
observation on the `connection_upgrade_time` histogram. -/
inductive Output
  | reply (slot : Nat) (result : Except PeerManagerError Unit)
  | notify (event : TransportNotification)
  | logged (msg : String)
  | observed (origin : ConnectionOrigin) (label : OutcomeLabel) (elapsed : Nat)
deriving DecidableEq

/-- The per-origin `counters::pending_connection_upgrades` gauges. -/
structure Counters where
  outbound : Int
  inbound : Int
deriving DecidableEq

/-- An entry of the outbound pool `pending_outbound_connections`: the tuple the
pushed future resolves to `(out, addr, peer_id, start_time, response_tx)`, with the
eventual transport result of the upgrade operation recorded as data. -/
structure OutboundPending where
  result : Except String Connection
  addr : NetworkAddress
  peer_id : PeerId
  start_time : Nat
  response_slot : Nat
deriving DecidableEq

/-- An entry of the inbound pool `pending_inbound_connections`: the tuple the pushed
future resolves to `(out, addr, start_time)`. -/
structure InboundPending where
  result : Except String Connection
  addr : NetworkAddress
  start_time : Nat
deriving DecidableEq

/-- The loop-owned mutable state: the two `FuturesUnordered` pools and the two
pending-upgrade gauges. -/
structure LoopState where
  outbound_pool : List OutboundPending
  inbound_pool : List InboundPending
  counters : Counters
deriving DecidableEq

/-- Result of running one completion handler: the updated gauges, the effects emitted
before returning (or before aborting), and the abort, if the handler hit a failed
`unwrap`. -/
structure Effects where
  counters : Counters
  outputs : List Output
  panic : Option Panic
deriving DecidableEq

def unwrap_panic_msg : String :=
  "called Result unwrap on an Err value"

def expect_listen_msg : String :=
  "Transport listen on fails"

def dial_reply_send_failed_log : String :=
  "Failed to notify clients of TransportError"

def outbound_reply_send_failed_log : String :=
  "Failed to notify PeerManager of OutboundConnection upgrade result"

/-- The identity-mismatch message built by `format_err!` at lines 221-225. -/
def mismatch_error_msg (dialed expected : PeerId) : String :=
  "Dialed PeerId " ++ dialed.short_str ++ " differs from expected PeerId "
    ++ expected.short_str

/-- `TransportHandler::dial_peer` (lines 152-201).  `dial_result` is the outcome of
`self.transport.dial(peer_id, addr)`: on `Ok(upgrade)` the `upgrade` value is the
eventual result the pooled operation will resolve with.  Returns the updated gauges,
the pending entry to push into the outbound pool (if any), and the effects emitted.
`reply_receiver_alive` says whether the requester still holds the reply slot
receiver, which only decides whether the failed send is logged. -/
def dial_peer (c : Counters) (req : TransportRequest)
    (dial_result : Except String (Except String Connection)) (now : Nat)
    (reply_receiver_alive : Bool) :
    Counters × Option OutboundPending × List Output :=
  match req with
  | .DialPeer peer_id addr response_slot =>
    match dial_result with
    | .ok upgrade =>
      ({ c with outbound := c.outbound + 1 },
       some ⟨upgrade, addr, peer_id, now, response_slot⟩,
       [])
    | .error e =>
      (c, none,
       Output.reply response_slot (.error (PeerManagerError.from_transport_error e)) ::
         (if reply_receiver_alive then [] else [Output.logged dial_reply_send_failed_log]))

/-- `TransportHandler::handle_completed_outbound_upgrade` (lines 203-290): decrement
the outbound gauge, classify the result (identity check on success), then either log,
observe the success histogram, send the connection to the sink (`.await.unwrap()` —
aborts if the sink receiver was dropped) and reply `Ok(())`, or log, observe the
failure histogram and reply with the classified error. -/
def handle_completed_outbound_upgrade (c : Counters)
    (upgrade : Except String Connection) (addr : NetworkAddress) (peer_id : PeerId)
    (start_time : Nat) (now : Nat) (response_slot : Nat)
    (sink_receiver_alive reply_receiver_alive : Bool) : Effects :=
  let c := { c with outbound := c.outbound - 1 }
  let elapsed := now - start_time
  let classified : Except PeerManagerError Connection :=
    match upgrade with
    | .ok connection =>
      if connection.metadata.remote_peer_id = peer_id then
        .ok connection
      else
        .error (PeerManagerError.from_transport_error
          (mismatch_error_msg connection.metadata.remote_peer_id peer_id))
    | .error err => .error (PeerManagerError.from_transport_error err)
  match classified with
  | .ok connection =>
    if sink_receiver_alive then
      ⟨c,
       [Output.logged "Outbound connection successfully upgraded",
        Output.observed .Outbound .succeeded elapsed,
        Output.notify (.NewConnection connection),
        Output.reply response_slot (.ok ())] ++
         (if reply_receiver_alive then []
          else [Output.logged outbound_reply_send_failed_log]),
       none⟩
    else
      ⟨c,
       [Output.logged "Outbound connection successfully upgraded",
        Output.observed .Outbound .succeeded elapsed],
       some (.panicked unwrap_panic_msg)⟩
  | .error err =>
    ⟨c,
     [Output.logged "Outbound connection failed",
      Output.observed .Outbound .failed elapsed,
      Output.reply response_slot (.error err)] ++
       (if reply_receiver_alive then []
        else [Output.logged outbound_reply_send_failed_log]),
     none⟩

/-- `TransportHandler::handle_completed_inbound_upgrade` (lines 292-345): decrement
the inbound gauge; on success log, observe the success histogram and send the
connection to the sink (`.await.unwrap()` — aborts if the sink receiver was dropped);
on failure log and observe the failure histogram.  No reply slot exists. -/
def handle_completed_inbound_upgrade (c : Counters)
    (upgrade : Except String Connection) (addr : NetworkAddress)
    (start_time : Nat) (now : Nat) (sink_receiver_alive : Bool) : Effects :=
  let c := { c with inbound := c.inbound - 1 }
  let elapsed := now - start_time
  match upgrade with
  | .ok connection =>
    if sink_receiver_alive then
      ⟨c,
       [Output.logged "Inbound connection successfully upgraded",
        Output.observed .Inbound .succeeded elapsed,
        Output.notify (.NewConnection connection)],
       none⟩
    else
      ⟨c,
       [Output.logged "Inbound connection successfully upgraded",
        Output.observed .Inbound .succeeded elapsed],
       some (.panicked unwrap_panic_msg)⟩
  | .error err =>
    ⟨c,
     [Output.logged "Inbound connection failed to upgrade",
      Output.observed .Inbound .failed elapsed],
     none⟩

/-- One ready event of the `futures::select!` in `TransportHandler::listen`
(lines 98-144), together with the external facts it depends on: the current time tick,
the transport dial outcome for a request, whether the sink and reply receivers are
still alive, and, for a pool completion, which in-flight entry resolved (pools are
unordered, so any index may complete next). -/
inductive LoopEvent
  | dialRequest (peer_id : PeerId) (addr : NetworkAddress) (response_slot : Nat)
      (dial_result : Except String (Except String Connection)) (now : Nat)
      (reply_receiver_alive : Bool)
  | incoming (res : Except String (Except String Connection × NetworkAddress))
      (now : Nat)
  | outboundComplete (i : Nat) (now : Nat)
      (sink_receiver_alive reply_receiver_alive : Bool)
  | inboundComplete (i : Nat) (now : Nat) (sink_receiver_alive : Bool)

/-- Result of one loop iteration: next state, effects, and the abort if an `unwrap`
failed during the iteration. -/
structure StepResult where
  state : LoopState
  outputs : List Output
  panic : Option Panic
deriving DecidableEq

/-- One iteration of the `loop { futures::select! { ... } }` body in
`TransportHandler::listen` (lines 98-144): a dial request is handed to `dial_peer`
and the returned future, if any, is pushed onto the outbound pool; a listener accept
increments the inbound gauge and pushes onto the inbound pool (an accept-level error
is only logged); a pool completion removes the resolved entry and runs the matching
completion handler. -/
def step (st : LoopState) (ev : LoopEvent) : StepResult :=
  match ev with
  | .dialRequest peer_id addr response_slot dial_result now reply_alive =>
    match dial_peer st.counters (.DialPeer peer_id addr response_slot)
        dial_result now reply_alive with
    | (c, some fut, outs) =>
      ⟨{ st with counters := c, outbound_pool := st.outbound_pool ++ [fut] }, outs, none⟩
    | (c, none, outs) =>
      ⟨{ st with counters := c }, outs, none⟩
  | .incoming res now =>
    match res with
    | .ok (upgrade, addr) =>
      ⟨{ st with
           counters := { st.counters with inbound := st.counters.inbound + 1 },
           inbound_pool := st.inbound_pool ++ [⟨upgrade, addr, now⟩] },
       [Output.logged "Incoming connection"], none⟩
    | .error _ =>
      ⟨st, [Output.logged "Incoming connection error"], none⟩
  | .outboundComplete i now sink_alive reply_alive =>
    match st.outbound_pool.get? i with
    | none => ⟨st, [], none⟩
    | some e =>
      let eff := handle_completed_outbound_upgrade st.counters e.result e.addr
        e.peer_id e.start_time now e.response_slot sink_alive reply_alive
      ⟨{ st with counters := eff.counters,
                 outbound_pool := st.outbound_pool.eraseIdx i },
       eff.outputs, eff.panic⟩
  | .inboundComplete i now sink_alive =>
    match st.inbound_pool.get? i with
    | none => ⟨st, [], none⟩
    | some e =>
      let eff := handle_completed_inbound_upgrade st.counters e.result e.addr
        e.start_time now sink_alive
      ⟨{ st with counters := eff.counters,
                 inbound_pool := st.inbound_pool.eraseIdx i },
       eff.outputs, eff.panic⟩

/-- Run the loop over a sequence of ready events, stopping (with the effects emitted
so far) if an iteration aborts on a failed `unwrap`. -/
def run (st : LoopState) : List LoopEvent → StepResult
  | [] => ⟨st, [], none⟩
  | ev :: evs =>
    match (step st ev).panic with
    | some p => ⟨(step st ev).state, (step st ev).outputs, some p⟩
    | none =>
      ⟨(run (step st ev).state evs).state,
       (step st ev).outputs ++ (run (step st ev).state evs).outputs,
       (run (step st ev).state evs).panic⟩

/-- The loop's starting state: both pools are freshly created and empty
(lines 90-91) and both gauges read zero. -/
def init_state : LoopState :=
  ⟨[], [], ⟨0, 0⟩⟩

/-- The `complete` branch of the `futures::select!` (line 142): it fires — breaking
the loop — exactly when every selected source is terminated: the request channel and
the fused listener are exhausted, and each `FuturesUnordered` pool is terminated,
which holds precisely when the pool is empty (polling a non-empty pool never reports
it terminated; pushing a future resets the terminated flag). -/
def select_loop_complete (reqs_terminated listener_terminated : Bool)
    (outbound_pool : List OutboundPending) (inbound_pool : List InboundPending) :
    Bool :=
  reqs_terminated && listener_terminated && outbound_pool.isEmpty
    && inbound_pool.isEmpty

/-- The termination condition as the spec words it (section 4.1): both streams
exhausted and no pending completion ready; stated over the number of in-flight
upgrades that are currently ready to complete.  Kept separate from
`select_loop_complete` so the two can be compared. -/
def spec_claimed_termination (reqs_terminated listener_terminated : Bool)
    (ready_completions : Nat) : Bool :=
  reqs_terminated && listener_terminated && (ready_completions == 0)

/-- The handler object built by `TransportHandler::new`; only the fused listener
handle matters for the constructor's behaviour, the channels are opaque. -/
structure TransportHandler where
  listener : Nat
deriving DecidableEq

/-- `TransportHandler::new` (lines 58-87): `transport.listen_on(listen_addr)` returns
a `Result`, and the constructor calls `.expect("Transport listen on fails")` on it:
a listen failure aborts the task; there is no error-returning path. -/
def TransportHandler.new
    (listen_on_result : Except String (Nat × NetworkAddress)) :
    Except Panic (TransportHandler × NetworkAddress) :=
  match listen_on_result with
  | .ok (listener, listen_addr) => .ok (⟨listener⟩, listen_addr)
  | .error _ => .error (.panicked expect_listen_msg)

/-- Whether an output is a send on reply slot `s`. -/
def is_reply_to (s : Nat) : Output → Bool
  | .reply s2 _ => s2 == s
  | _ => false

/-- Number of sends on reply slot `s` among the emitted outputs. -/
def count_reply (s : Nat) (outs : List Output) : Nat :=
  outs.countP (is_reply_to s)

/-- Number of outbound-pool entries carrying reply slot `s`. -/
def count_slot (s : Nat) (pool : List OutboundPending) : Nat :=
  pool.countP (fun e => e.response_slot == s)

/-- Number of dial requests for reply slot `s` carried by one event. -/
def submitted_in (s : Nat) : LoopEvent → Nat
  | .dialRequest _ _ slot _ _ _ => if slot == s then 1 else 0
  | _ => 0

/-- Number of dial requests for reply slot `s` in an event sequence. -/
def count_submitted (s : Nat) (evs : List LoopEvent) : Nat :=
  (evs.map (submitted_in s)).sum

/-- Number of sink notifications among the emitted outputs. -/
def count_notify (outs : List Output) : Nat :=
  outs.countP (fun o => match o with | .notify _ => true | _ => false)

/-- Scans the emitted outputs in order: `true` iff the notification `n` is emitted
and is emitted strictly before any send on reply slot `slot`. -/
def notify_precedes_reply (n : TransportNotification) (slot : Nat) :
    List Output → Bool
  | [] => false
  | .notify m :: rest =>
    if m = n then true else notify_precedes_reply n slot rest
  | .reply s2 _ :: rest =>
    if s2 = slot then false else notify_precedes_reply n slot rest
  | _ :: rest => notify_precedes_reply n slot rest

/-- Each pending-upgrade gauge reads exactly the cardinality of its pool. -/
def counters_match (st : LoopState) : Prop :=
  st.counters.outbound = (st.outbound_pool.length : Int) ∧
    st.counters.inbound = (st.inbound_pool.length : Int)

/-- C5: when the transport rejects a dial immediately, the loop iteration resolves
the reply slot synchronously with the wrapped transport error, admits nothing to the
outbound pool, and leaves the whole loop state — in particular the outbound pending
gauge and both pools — unchanged. -/
theorem C5_immediate_rejection_frame (st : LoopState) (peer_id : PeerId)
    (addr : NetworkAddress) (slot : Nat) (e : String) (now : Nat) (ra : Bool) :
    step st (.dialRequest peer_id addr slot (.error e) now ra) =
      ⟨st,
       Output.reply slot (.error (PeerManagerError.from_transport_error e)) ::
         (if ra then [] else [Output.logged dial_reply_send_failed_log]),
       none⟩ := by
  rfl

/-- C7: if the notification sink's receiving side was dropped, the `.unwrap()` on the
sink send aborts the loop task, on the outbound success path (matching identity) and
on the inbound success path alike. -/
theorem C7_sink_drop_fatal (c c2 : Counters) (conn conn2 : Connection)
    (addr addr2 : NetworkAddress) (t t2 now now2 slot : Nat) (ra : Bool) :
    (handle_completed_outbound_upgrade c (.ok conn) addr
        conn.metadata.remote_peer_id t now slot false ra).panic =
      some (.panicked unwrap_panic_msg) ∧
    (handle_completed_inbound_upgrade c2 (.ok conn2) addr2 t2 now2 false).panic =
      some (.panicked unwrap_panic_msg) := by
  constructor
  · simp [handle_completed_outbound_upgrade]
  · simp [handle_completed_inbound_upgrade]

/-- C10: `TransportHandler::new` aborts (via `.expect`) whenever
`transport.listen_on` fails; on success it returns the handler and the bound
address.  No error value is ever returned to the caller. -/
theorem C10_new_panics_on_listen_failure (e : String) (l : Nat)
    (a : NetworkAddress) :
    TransportHandler.new (.error e) = .error (.panicked expect_listen_msg) ∧
      TransportHandler.new (.ok (l, a)) = .ok (⟨l⟩, a) :=
  ⟨rfl, rfl⟩

/-- C9: on the outbound success path the reply slot is resolved with `Ok(())`, and
only after the `Connection` notification has been accepted by the sink: in the
emitted effect sequence the notification strictly precedes the reply. -/
theorem C9_reply_only_after_delivery (c : Counters) (conn : Connection)
    (addr : NetworkAddress) (t now slot : Nat) (ra : Bool) :
    Output.reply slot (.ok ()) ∈
        (handle_completed_outbound_upgrade c (.ok conn) addr
          conn.metadata.remote_peer_id t now slot true ra).outputs ∧
      notify_precedes_reply (.NewConnection conn) slot
          (handle_completed_outbound_upgrade c (.ok conn) addr
            conn.metadata.remote_peer_id t now slot true ra).outputs = true := by
  constructor <;>
    simp [handle_completed_outbound_upgrade, notify_precedes_reply]

/-- C3: a successful upgrade with matching identity (outbound) or any successful
inbound upgrade sends exactly one notification to the sink — the upgraded
connection — and the outbound reply slot is resolved with `Ok(())`. -/
theorem C3_exactly_one_notification (c c2 : Counters) (conn conn2 : Connection)
    (addr addr2 : NetworkAddress) (t t2 now now2 slot : Nat) (ra : Bool) :
    (count_notify (handle_completed_outbound_upgrade c (.ok conn) addr
          conn.metadata.remote_peer_id t now slot true ra).outputs = 1 ∧
       Output.notify (.NewConnection conn) ∈
         (handle_completed_outbound_upgrade c (.ok conn) addr
           conn.metadata.remote_peer_id t now slot true ra).outputs ∧
       Output.reply slot (.ok ()) ∈
         (handle_completed_outbound_upgrade c (.ok conn) addr
           conn.metadata.remote_peer_id t now slot true ra).outputs) ∧
      (count_notify (handle_completed_inbound_upgrade c2 (.ok conn2) addr2 t2 now2
          true).outputs = 1 ∧
       Output.notify (.NewConnection conn2) ∈
         (handle_completed_inbound_upgrade c2 (.ok conn2) addr2 t2 now2
           true).outputs) := by
  refine ⟨⟨?_, ?_, ?_⟩, ?_, ?_⟩ <;>
    cases ra <;>
      simp [handle_completed_outbound_upgrade, handle_completed_inbound_upgrade,
        count_notify, List.countP_append, List.countP_cons]

/-- C2 (amended): when the upgrade succeeds but the observed peer differs from the
requested one, the outcome is classified as an error carrying the distinctive
identity-mismatch message — wrapped by the same `from_transport_error` used for
transport failures — the reply slot is resolved exactly once with that error, no
notification reaches the sink, and the iteration does not abort. -/
theorem C2_identity_mismatch_reply (c : Counters) (conn : Connection)
    (addr : NetworkAddress) (p : PeerId) (t now slot : Nat) (sa ra : Bool)
    (h : conn.metadata.remote_peer_id ≠ p) :
    count_notify (handle_completed_outbound_upgrade c (.ok conn) addr p t now slot
        sa ra).outputs = 0 ∧
      Output.reply slot (.error (PeerManagerError.from_transport_error
          (mismatch_error_msg conn.metadata.remote_peer_id p))) ∈
        (handle_completed_outbound_upgrade c (.ok conn) addr p t now slot
          sa ra).outputs ∧
      count_reply slot (handle_completed_outbound_upgrade c (.ok conn) addr p t now
          slot sa ra).outputs = 1 ∧
      (handle_completed_outbound_upgrade c (.ok conn) addr p t now slot
        sa ra).panic = none := by
  refine ⟨?_, ?_, ?_, ?_⟩ <;>
    cases ra <;>
      simp [handle_completed_outbound_upgrade, h, count_notify, count_reply,
        is_reply_to, List.countP_append, List.countP_cons]

def c2_conn : Connection := ⟨⟨⟨3⟩, ⟨1⟩, .Outbound⟩, 0⟩

theorem C2_identity_mismatch_reply_witness :
    c2_conn.metadata.remote_peer_id ≠ (⟨2⟩ : PeerId) ∧
      (count_notify (handle_completed_outbound_upgrade ⟨0, 0⟩ (.ok c2_conn) ⟨1⟩ ⟨2⟩
          0 5 9 true true).outputs = 0 ∧
        Output.reply 9 (.error (PeerManagerError.from_transport_error
            (mismatch_error_msg c2_conn.metadata.remote_peer_id ⟨2⟩))) ∈
          (handle_completed_outbound_upgrade ⟨0, 0⟩ (.ok c2_conn) ⟨1⟩ ⟨2⟩
            0 5 9 true true).outputs ∧
        count_reply 9 (handle_completed_outbound_upgrade ⟨0, 0⟩ (.ok c2_conn) ⟨1⟩ ⟨2⟩
            0 5 9 true true).outputs = 1 ∧
        (handle_completed_outbound_upgrade ⟨0, 0⟩ (.ok c2_conn) ⟨1⟩ ⟨2⟩
          0 5 9 true true).panic = none) :=
  ⟨by decide,
   C2_identity_mismatch_reply ⟨0, 0⟩ c2_conn ⟨1⟩ ⟨2⟩ 0 5 9 true true (by decide)⟩

/-- C2 (counterexample): the identity-mismatch outcome is not distinguishable by
error kind from a transport `UpgradeFailed` outcome.  A transport-level upgrade
failure whose error renders to the mismatch message makes the handler produce the
very same effects — same reply error, same everything — as the identity-mismatch
completion, because both paths wrap their error through the one constructor
`PeerManagerError::from_transport_error`. -/
theorem C2_counterexample_same_as_transport_failure :
    handle_completed_outbound_upgrade ⟨0, 0⟩ (.ok c2_conn) ⟨1⟩ ⟨2⟩ 0 5 9
        true true =
      handle_completed_outbound_upgrade ⟨0, 0⟩
        (.error (mismatch_error_msg ⟨3⟩ ⟨2⟩)) ⟨1⟩ ⟨2⟩ 0 5 9 true true := by
  rfl

/-- C6: when an inbound upgrade resolves with a failure, the iteration's only
effects are removing that entry from the inbound pool, decrementing the inbound
pending gauge, a log line and a failure-duration observation: no notification, no
reply, no abort, and every other component of the loop state is unchanged. -/
theorem C6_inbound_failure_frame (st : LoopState) (i : Nat) (e : InboundPending)
    (now : Nat) (sink_alive : Bool) (msg : String)
    (hget : st.inbound_pool.get? i = some e) (hres : e.result = .error msg) :
    step st (.inboundComplete i now sink_alive) =
      ⟨{ st with
           inbound_pool := st.inbound_pool.eraseIdx i,
           counters := { st.counters with inbound := st.counters.inbound - 1 } },
       [Output.logged "Inbound connection failed to upgrade",
        Output.observed .Inbound .failed (now - e.start_time)],
       none⟩ := by
  rw [List.get?_eq_getElem?] at hget
  simp [step, hget, handle_completed_inbound_upgrade, hres]

def c6_state : LoopState := ⟨[], [⟨.error "io", ⟨4⟩, 2⟩], ⟨0, 1⟩⟩

def c6_entry : InboundPending := ⟨.error "io", ⟨4⟩, 2⟩

theorem C6_inbound_failure_frame_witness :
    c6_state.inbound_pool.get? 0 = some c6_entry ∧
      c6_entry.result = .error "io" ∧
      step c6_state (.inboundComplete 0 7 true) =
        ⟨{ c6_state with
             inbound_pool := c6_state.inbound_pool.eraseIdx 0,
             counters := { c6_state.counters with
                             inbound := c6_state.counters.inbound - 1 } },
         [Output.logged "Inbound connection failed to upgrade",
          Output.observed .Inbound .failed (7 - c6_entry.start_time)],
         none⟩ :=
  ⟨by decide, by decide,
   C6_inbound_failure_frame c6_state 0 c6_entry 7 true "io" (by decide) (by decide)⟩

def c8_pending : OutboundPending := ⟨.error "pending", ⟨1⟩, ⟨1⟩, 0, 3⟩

/-- C8 (counterexample): with the request channel and the listener both exhausted
and zero in-flight completions ready, the claim's condition says the loop
terminates; but with one unresolved upgrade still in the outbound pool the select
`complete` branch does not fire, so the loop keeps running. -/
theorem C8_counterexample_pending_blocks_termination :
    spec_claimed_termination true true 0 = true ∧
      select_loop_complete true true [c8_pending] [] = false := by
  decide

/-- C8 (amended): the loop terminates exactly when the request channel and the
listener are exhausted and both upgrade pools are empty.  In particular a pool
holding an in-flight upgrade keeps the loop alive, so at the moment of termination
no `PendingUpgrade` remains in either pool to be abandoned. -/
theorem C8_amended_termination (r l : Bool) (op : List OutboundPending)
    (ip : List InboundPending) :
    select_loop_complete r l op ip = true ↔
      (r = true ∧ l = true ∧ op = [] ∧ ip = []) := by
  simp [select_loop_complete, List.isEmpty_iff, and_assoc]

theorem countP_eraseIdx {α : Type} (p : α → Bool) :
    ∀ (l : List α) (i : Nat) (e : α), l[i]? = some e →
      (l.eraseIdx i).countP p + (if p e then 1 else 0) = l.countP p
  | [], i, e, h => by simp at h
  | a :: t, 0, e, h => by
    simp at h
    subst h
    simp [List.eraseIdx, List.countP_cons]
  | a :: t, i + 1, e, h => by
    have ih := countP_eraseIdx p t i e (by simpa using h)
    simp [List.eraseIdx, List.countP_cons]
    omega

theorem outbound_handler_counters (c : Counters) (u : Except String Connection)
    (a : NetworkAddress) (p : PeerId) (t now slot : Nat) (sa ra : Bool) :
    (handle_completed_outbound_upgrade c u a p t now slot sa ra).counters =
      { c with outbound := c.outbound - 1 } := by
  cases u with
  | error err => rfl
  | ok conn =>
    by_cases hm : conn.metadata.remote_peer_id = p <;>
      cases sa <;>
        simp [handle_completed_outbound_upgrade, hm]

theorem inbound_handler_counters (c : Counters) (u : Except String Connection)
    (a : NetworkAddress) (t now : Nat) (sa : Bool) :
    (handle_completed_inbound_upgrade c u a t now sa).counters =
      { c with inbound := c.inbound - 1 } := by
  cases u <;> cases sa <;> simp [handle_completed_inbound_upgrade]

theorem outbound_handler_reply_count (c : Counters) (u : Except String Connection)
    (a : NetworkAddress) (p : PeerId) (t now slot : Nat) (sa ra : Bool) (s : Nat)
    (h : (handle_completed_outbound_upgrade c u a p t now slot sa ra).panic =
      none) :
    count_reply s
        (handle_completed_outbound_upgrade c u a p t now slot sa ra).outputs =
      if slot == s then 1 else 0 := by
  cases u with
  | error err =>
    cases ra <;>
      simp [handle_completed_outbound_upgrade, count_reply, is_reply_to,
        List.countP_append, List.countP_cons]
  | ok conn =>
    by_cases hm : conn.metadata.remote_peer_id = p
    · cases sa
      · simp [handle_completed_outbound_upgrade, hm] at h
      · cases ra <;>
          simp [handle_completed_outbound_upgrade, hm, count_reply, is_reply_to,
            List.countP_append, List.countP_cons]
    · cases ra <;>
        simp [handle_completed_outbound_upgrade, hm, count_reply, is_reply_to,
          List.countP_append, List.countP_cons]

theorem inbound_handler_no_reply (c : Counters) (u : Except String Connection)
    (a : NetworkAddress) (t now : Nat) (sa : Bool) (s : Nat) :
    count_reply s (handle_completed_inbound_upgrade c u a t now sa).outputs = 0 := by
  cases u <;> cases sa <;>
    simp [handle_completed_inbound_upgrade, count_reply, is_reply_to,
      List.countP_cons]

theorem step_reply_balance (st : LoopState) (ev : LoopEvent) (s : Nat)
    (h : (step st ev).panic = none) :
    count_reply s (step st ev).outputs +
        count_slot s (step st ev).state.outbound_pool =
      submitted_in s ev + count_slot s st.outbound_pool := by
  cases ev with
  | dialRequest p a slot dr now ra =>
    cases dr with
    | ok upg =>
      simp [step, dial_peer, count_reply, count_slot, submitted_in,
        List.countP_append, List.countP_cons, is_reply_to]
      omega
    | error e =>
      cases ra <;>
        simp [step, dial_peer, count_reply, count_slot, submitted_in,
          List.countP_cons, is_reply_to]
  | incoming res now =>
    rcases res with e | ⟨upg, addr⟩ <;>
      simp [step, count_reply, count_slot, submitted_in, is_reply_to,
        List.countP_cons]
  | outboundComplete i now sa ra =>
    cases hg : st.outbound_pool[i]? with
    | none =>
      simp [step, List.get?_eq_getElem?, hg, submitted_in, count_reply]
    | some e =>
      have hpanic : (handle_completed_outbound_upgrade st.counters e.result e.addr
          e.peer_id e.start_time now e.response_slot sa ra).panic = none := by
        simpa [step, List.get?_eq_getElem?, hg] using h
      have hrc := outbound_handler_reply_count st.counters e.result e.addr
        e.peer_id e.start_time now e.response_slot sa ra s hpanic
      have hremove := countP_eraseIdx (fun x => x.response_slot == s)
        st.outbound_pool i e hg
      simp [step, List.get?_eq_getElem?, hg, count_reply, count_slot,
        submitted_in] at *
      omega
  | inboundComplete i now sa =>
    cases hg : st.inbound_pool[i]? with
    | none =>
      simp [step, List.get?_eq_getElem?, hg, submitted_in, count_reply]
    | some e =>
      have hnr := inbound_handler_no_reply st.counters e.result e.addr
        e.start_time now sa s
      simp [step, List.get?_eq_getElem?, hg, count_reply, count_slot,
        submitted_in] at *
      exact hnr

theorem run_reply_balance (s : Nat) :
    ∀ (evs : List LoopEvent) (st : LoopState),
      (run st evs).panic = none →
      count_reply s (run st evs).outputs +
          count_slot s (run st evs).state.outbound_pool =
        count_submitted s evs + count_slot s st.outbound_pool
  | [], st, h => by
    simp [run, count_reply, count_submitted]
  | ev :: evs, st, h => by
    cases hp : (step st ev).panic with
    | some p =>
      rw [run] at h
      simp [hp] at h
    | none =>
      have hstep := step_reply_balance st ev s hp
      have hrun : (run (step st ev).state evs).panic = none := by
        rw [run] at h
        simpa [hp] using h
      have ih := run_reply_balance s evs (step st ev).state hrun
      rw [run]
      simp only [hp]
      simp [count_reply, count_submitted, List.countP_append] at *
      omega

/-- C1: in any completed run of the loop from its initial state that does not abort,
a dial request submitted exactly once whose upgrade is no longer in flight at the
end (the pool holds no entry for its reply slot) has its reply slot resolved exactly
once — by the synchronous rejection reply or by the completion handler's reply. -/
theorem C1_exactly_once_reply (evs : List LoopEvent) (s : Nat)
    (hp : (run init_state evs).panic = none)
    (hsub : count_submitted s evs = 1)
    (hdrained : count_slot s (run init_state evs).state.outbound_pool = 0) :
    count_reply s (run init_state evs).outputs = 1 := by
  have h := run_reply_balance s evs init_state hp
  simp only [init_state, count_slot, count_reply, count_submitted,
    List.countP_nil] at h hsub hdrained ⊢
  omega

def c1_conn : Connection := ⟨⟨⟨1⟩, ⟨1⟩, .Outbound⟩, 0⟩

def c1_events : List LoopEvent :=
  [.dialRequest ⟨1⟩ ⟨1⟩ 5 (.ok (.ok c1_conn)) 0 true,
   .outboundComplete 0 4 true true]

theorem C1_exactly_once_reply_witness :
    (run init_state c1_events).panic = none ∧
      count_submitted 5 c1_events = 1 ∧
      count_slot 5 (run init_state c1_events).state.outbound_pool = 0 ∧
      count_reply 5 (run init_state c1_events).outputs = 1 :=
  ⟨by decide, by decide, by decide,
   C1_exactly_once_reply c1_events 5 (by decide) (by decide) (by decide)⟩

theorem step_preserves_counters (st : LoopState) (ev : LoopEvent)
    (h : counters_match st) : counters_match (step st ev).state := by
  obtain ⟨ho, hi⟩ := h
  cases ev with
  | dialRequest p a slot dr now ra =>
    cases dr <;>
      simp [step, dial_peer, counters_match, List.length_append] <;>
      omega
  | incoming res now =>
    rcases res with e | ⟨upg, addr⟩ <;>
      simp [step, counters_match, List.length_append] <;>
      omega
  | outboundComplete i now sa ra =>
    cases hg : st.outbound_pool[i]? with
    | none =>
      simpa [step, List.get?_eq_getElem?, hg, counters_match] using ⟨ho, hi⟩
    | some e =>
      have hlen : i < st.outbound_pool.length := by
        by_contra hc
        rw [List.getElem?_eq_none (by omega)] at hg
        exact Option.noConfusion hg
      have hc := outbound_handler_counters st.counters e.result e.addr e.peer_id
        e.start_time now e.response_slot sa ra
      simp [step, List.get?_eq_getElem?, hg, counters_match, hc,
        List.length_eraseIdx, hlen]
      omega
  | inboundComplete i now sa =>
    cases hg : st.inbound_pool[i]? with
    | none =>
      simpa [step, List.get?_eq_getElem?, hg, counters_match] using ⟨ho, hi⟩
    | some e =>
      have hlen : i < st.inbound_pool.length := by
        by_contra hc
        rw [List.getElem?_eq_none (by omega)] at hg
        exact Option.noConfusion hg
      have hc := inbound_handler_counters st.counters e.result e.addr
        e.start_time now sa
      simp [step, List.get?_eq_getElem?, hg, counters_match, hc,
        List.length_eraseIdx, hlen]
      omega

theorem run_preserves_counters :
    ∀ (evs : List LoopEvent) (st : LoopState),
      counters_match st → counters_match (run st evs).state
  | [], st, h => by simpa [run] using h
  | ev :: evs, st, h => by
    have h2 := step_preserves_counters st ev h
    cases hp : (step st ev).panic with
    | some p =>
      rw [run]
      simpa [hp] using h2
    | none =>
      have h3 := run_preserves_counters evs (step st ev).state h2
      rw [run]
      simpa [hp] using h3

/-- C4: every state the loop reaches from its initial state satisfies the gauge
invariant: each per-origin pending-upgrade gauge equals the cardinality of that
origin's pool.  The gauge is incremented exactly by the steps that admit an
operation into a pool and decremented exactly by the steps that resolve one; a
rejected dial performs neither. -/
theorem C4_gauge_equals_pool_cardinality (evs : List LoopEvent) :
    counters_match (run init_state evs).state :=
  run_preserves_counters evs init_state ⟨rfl, rfl⟩
